import Mathlib

/-!
Verification of the Infinite Vision Studio storyboard pipeline.

The development shallowly embeds the repository's code:
* the JSON handling of the two text-generation service calls
  (`developStoryConcept`, `generateStoryboardFromText` in the service module),
* the page-image call (`generatePageImage`) with its composite prompt,
* the orchestrator handlers of `App.tsx` (`handleStartProduction`,
  `handleBuildManga`, `renderAllPagesSequentially`, `handleGeneratePage`,
  `saveEdit`) as explicit state transformers over an `AppState` record,
  instrumented with a trace of the service calls they issue.

External services are modelled as oracle functions from the request the code
builds to the response the code then inspects.
-/

namespace IVS

/-! ## JSON values and a model of `JSON.parse`

The service functions call the JavaScript builtin `JSON.parse` on the response
body.  `JValue` is the type of parsed JSON values; `parseJSON` is a
recursive-descent parser modelling `JSON.parse`: it returns `none` exactly when
`JSON.parse` would throw a `SyntaxError`.  Deviation kept deliberately small:
numbers are parsed as integers only (a fractional or exponent part is rejected);
every schema-constrained number in this application is an INTEGER field. -/

inductive JValue where
  | null
  | bool (b : Bool)
  | num (n : Int)
  | str (s : String)
  | arr (elems : List JValue)
  | obj (fields : List (String × JValue))

/-- Consume leading JSON whitespace. -/
def skipWs : List Char → List Char
  | [] => []
  | c :: cs => if c = ' ' ∨ c = '\t' ∨ c = '\n' ∨ c = '\r' then skipWs cs else c :: cs

/-- Value of a hexadecimal digit. -/
def hexVal (c : Char) : Option Nat :=
  if '0' ≤ c ∧ c ≤ '9' then some (c.toNat - 48)
  else if 'a' ≤ c ∧ c ≤ 'f' then some (c.toNat - 87)
  else if 'A' ≤ c ∧ c ≤ 'F' then some (c.toNat - 55)
  else none

/-- Single-character JSON string escapes. -/
def escChar (e : Char) : Option Char :=
  if e = '"' then some '"'
  else if e = '\\' then some '\\'
  else if e = '/' then some '/'
  else if e = 'n' then some '\n'
  else if e = 't' then some '\t'
  else if e = 'r' then some '\r'
  else if e = 'b' then some (Char.ofNat 8)
  else if e = 'f' then some (Char.ofNat 12)
  else none

/-- Body of a JSON string literal (after the opening quote), up to and
including the closing quote. -/
def parseStrChars : List Char → Option (List Char × List Char)
  | [] => none
  | '"' :: rest => some ([], rest)
  | '\\' :: 'u' :: a :: b :: c :: d :: rest =>
      match hexVal a, hexVal b, hexVal c, hexVal d with
      | some ha, some hb, some hc, some hd =>
          (parseStrChars rest).map (fun pr =>
            (Char.ofNat (((ha * 16 + hb) * 16 + hc) * 16 + hd) :: pr.1, pr.2))
      | _, _, _, _ => none
  | '\\' :: e :: rest =>
      match escChar e with
      | some ch => (parseStrChars rest).map (fun pr => (ch :: pr.1, pr.2))
      | none => none
  | c :: rest => (parseStrChars rest).map (fun pr => (c :: pr.1, pr.2))

/-- Digit run accumulator. -/
def parseDigitsAux : List Char → Nat → Nat × List Char
  | [], acc => (acc, [])
  | c :: cs, acc =>
      if c.isDigit then parseDigitsAux cs (acc * 10 + (c.toNat - 48)) else (acc, c :: cs)

/-- JSON integer literal (optionally negative); a fractional or exponent part
is rejected (see the note on `parseJSON`). -/
def parseNum : List Char → Option (Int × List Char)
  | '-' :: rest =>
      match rest with
      | c :: _ =>
          if c.isDigit then
            let pr := parseDigitsAux rest 0
            match pr.2 with
            | c2 :: _ => if c2 = '.' ∨ c2 = 'e' ∨ c2 = 'E' then none else some (-(pr.1 : Int), pr.2)
            | [] => some (-(pr.1 : Int), pr.2)
          else none
      | [] => none
  | cs =>
      match cs with
      | c :: _ =>
          if c.isDigit then
            let pr := parseDigitsAux cs 0
            match pr.2 with
            | c2 :: _ => if c2 = '.' ∨ c2 = 'e' ∨ c2 = 'E' then none else some ((pr.1 : Int), pr.2)
            | [] => some ((pr.1 : Int), pr.2)
          else none
      | [] => none

mutual

/-- One JSON value (fuelled recursive descent). -/
def parseVal : Nat → List Char → Option (JValue × List Char)
  | 0, _ => none
  | Nat.succ fuel, cs =>
    match skipWs cs with
    | 'n' :: 'u' :: 'l' :: 'l' :: rest => some (JValue.null, rest)
    | 't' :: 'r' :: 'u' :: 'e' :: rest => some (JValue.bool true, rest)
    | 'f' :: 'a' :: 'l' :: 's' :: 'e' :: rest => some (JValue.bool false, rest)
    | '"' :: rest => (parseStrChars rest).map (fun pr => (JValue.str (String.mk pr.1), pr.2))
    | '[' :: rest =>
        (match skipWs rest with
         | ']' :: rest2 => some (JValue.arr [], rest2)
         | _ => (parseElems fuel rest).map (fun pr => (JValue.arr pr.1, pr.2)))
    | '\x7b' :: rest =>
        (match skipWs rest with
         | '\x7d' :: rest2 => some (JValue.obj [], rest2)
         | _ => (parseMembers fuel rest).map (fun pr => (JValue.obj pr.1, pr.2)))
    | other => (parseNum other).map (fun pr => (JValue.num pr.1, pr.2))

/-- Comma-separated array elements, up to and including the closing bracket. -/
def parseElems : Nat → List Char → Option (List JValue × List Char)
  | 0, _ => none
  | Nat.succ fuel, cs => do
    let (v, rest) ← parseVal fuel cs
    match skipWs rest with
    | ',' :: rest2 => do
        let (vs, rest3) ← parseElems fuel rest2
        some (v :: vs, rest3)
    | ']' :: rest2 => some ([v], rest2)
    | _ => none

/-- Comma-separated object members, up to and including the closing brace. -/
def parseMembers : Nat → List Char → Option (List (String × JValue) × List Char)
  | 0, _ => none
  | Nat.succ fuel, cs =>
    match skipWs cs with
    | '"' :: rest => do
        let (k, rest1) ← parseStrChars rest
        match skipWs rest1 with
        | ':' :: rest2 => do
            let (v, rest3) ← parseVal fuel rest2
            match skipWs rest3 with
            | ',' :: rest4 => do
                let (ms, rest5) ← parseMembers fuel rest4
                some ((String.mk k, v) :: ms, rest5)
            | '\x7d' :: rest4 => some ([(String.mk k, v)], rest4)
            | _ => none
        | _ => none
    | _ => none

end

/-- Model of `JSON.parse`: parse one value, allow trailing whitespace only. -/
def parseJSON (s : String) : Option JValue :=
  match parseVal (4 * s.length + 4) s.data with
  | some (v, rest) => if skipWs rest = [] then some v else none
  | none => none

/-! ## Data model (`types.ts`)

Optional TypeScript fields (`dialogue?`, `imageUrl?`, `isGenerating?`) are
`Option`s.  `Scene.timeOfDay` is declared `string` in `types.ts` but is never
requested from the service schema nor written by the app, so at runtime it may
be absent: it is an `Option` here as well. -/

structure Character where
  id : String
  name : String
  appearance : String
deriving DecidableEq, Repr

structure Scene where
  id : String
  sceneNumber : Int
  location : String
  timeOfDay : Option String
  action : String
  dialogue : Option String
  visualPrompt : String
  imageUrl : Option String
  isGenerating : Option Bool
deriving DecidableEq, Repr

structure Page where
  id : String
  pageNumber : Int
  scenes : List Scene
  imageUrl : Option String
  isGenerating : Option Bool
  pageLayoutDescription : String
deriving DecidableEq, Repr

structure StoryboardData where
  title : String
  characters : List Character
  pages : List Page
deriving DecidableEq, Repr

structure DevelopedStory where
  story : String
  screenplay : String
deriving DecidableEq, Repr

/-! ## Text-generation service calls (service module)

A text response of the SDK carries `text : string | undefined`; the code reads
`JSON.parse(response.text || "{}")`.  The external service is an oracle from
the request contents the code builds to the response it returns.  Both
functions return the parsed JSON value itself (the TypeScript return-type
annotation is erased at runtime); a `JSON.parse` failure is an exception
propagating out of the function, modelled as `Except.error "SyntaxError"`. -/

structure TextResponse where
  text : Option String

/-- JavaScript `response.text || "\x7b\x7d"`: an absent or empty string falls
back to the empty-object literal. -/
def jsOrEmptyObj : Option String → String
  | none => "\x7b\x7d"
  | some s => if s = "" then "\x7b\x7d" else s

/-- The request contents `developStoryConcept` sends (template literal of the
source, with the panel count interpolated). -/
def developContents (idea : String) (targetPanels : Nat) : String :=
  "You are a world-class cinematic director and screenplay logic engine. \n    TASK:\n    1. Expand the SEED IDEA into a compelling narrative summary.\n    2. Write an EXHAUSTIVE SCREENPLAY containing exactly "
    ++ toString targetPanels
    ++ " distinct, sequential beats. \n       CRITICAL: Each beat must be a specific visual action or camera moment. \n       The flow must be perfectly natural with no gaps in time or logic. \n       Keep actions simple but descriptive enough for visual drafting.\n    \n    SEED IDEA:\n    "
    ++ idea

/-- `developStoryConcept(idea, targetPanels)` with the service as an oracle. -/
def developStoryConcept (svc : String → TextResponse) (idea : String)
    (targetPanels : Nat) : Except String JValue :=
  match parseJSON (jsOrEmptyObj (svc (developContents idea targetPanels)).text) with
  | some v => Except.ok v
  | none => Except.error "SyntaxError"

/-- The request contents `generateStoryboardFromText` sends. -/
def storyboardContents (text : String) (numPages numPanelsPerPage : Nat) : String :=
  "You are a professional storyboard layout artist.\n    TASK:\n    1. CHARACTER DESIGN: Use minimalist silhouettes or featureless mannequins with one identifier (e.g., \"Silhouette A\", \"Mannequin with hat\").\n    2. STRUCTURE: Break the screenplay into EXACTLY "
    ++ toString numPages
    ++ " PAGES.\n    3. DENSITY: Each PAGE MUST contain EXACTLY "
    ++ toString numPanelsPerPage
    ++ " sequential PANELS.\n    4. GRID ORDER: Panels must be organized for a grid layout that reads strictly LEFT-TO-RIGHT then NEXT ROW. \n       - Panel 1 is top-left.\n       - Panel 2 is to its right.\n       - Continue until row end, then move down to the next row starting from the left.\n    \n    SCREENPLAY TEXT:\n    "
    ++ text

/-- `generateStoryboardFromText(text, numPages, numPanelsPerPage)` with the
service as an oracle.  The parsed response is returned verbatim: the code
performs no validation of the page/panel structure. -/
def generateStoryboardFromText (svc : String → TextResponse) (text : String)
    (numPages numPanelsPerPage : Nat) : Except String JValue :=
  match parseJSON
      (jsOrEmptyObj (svc (storyboardContents text numPages numPanelsPerPage)).text) with
  | some v => Except.ok v
  | none => Except.error "SyntaxError"

/-! ## Image-generation service call (`generatePageImage`)

The SDK response is scanned as `response.candidates[0].content.parts`; indexing
an empty `candidates` in JavaScript yields `undefined` and the subsequent
property access throws a `TypeError` (distinct from the explicit
`"Drafting system error."` thrown when no part carries inline data). -/

structure InlineData where
  data : String
deriving DecidableEq, Repr

structure GenPart where
  text : Option String
  inlineData : Option InlineData
deriving DecidableEq, Repr

structure ContentObj where
  parts : List GenPart
deriving DecidableEq, Repr

structure Candidate where
  content : ContentObj
deriving DecidableEq, Repr

structure ImageResponse where
  candidates : List Candidate
deriving DecidableEq, Repr

/-- JavaScript `Array.prototype.join(sep)`. -/
def joinSep (sep : String) : List String → String
  | [] => ""
  | [a] => a
  | a :: b :: rest => a ++ sep ++ joinSep sep (b :: rest)

/-- The arrow function `c => c.name + ": " + c.appearance` of the source. -/
def characterLine (c : Character) : String :=
  c.name ++ ": " ++ c.appearance

/-- `allCharacters.map(c => ...).join(". ")` of the source. -/
def characterContext (allCharacters : List Character) : String :=
  joinSep ". " (allCharacters.map characterLine)

/-- The arrow function building one panel's line: its visual prompt
concatenated with its action beat. -/
def sceneLine (s : Scene) : String :=
  "Panel " ++ toString s.sceneNumber ++ ": " ++ s.visualPrompt ++ ". Beat: " ++ s.action

/-- `page.scenes.map(s => ...).join(". ")` of the source. -/
def scenesPrompts (page : Page) : String :=
  joinSep ". " (page.scenes.map sceneLine)

/-- The composite `fullPrompt` template literal of `generatePageImage`
(string concatenation is associative, so the grouping of the template's
pieces is immaterial). -/
def pageImagePrompt (page : Page) (allCharacters : List Character) : String :=
  "Cinematic Technical Storyboard Page. \n  Vertical 3:4 Manga Layout. \n  "
    ++ ("GRID: " ++ toString page.scenes.length
        ++ " panels, reading strictly LEFT-TO-RIGHT, TOP-TO-BOTTOM (row by row).")
    ++ "\n  CHARACTERS: "
    ++ characterContext allCharacters
    ++ " (Minimalist drafting mannequins). \n  PANEL CONTENT: "
    ++ scenesPrompts page
    ++ ". \n  "
    ++ "STYLE: Rough director's ink sketch. Stark black lines on white paper. No colors, no gray tones."
    ++ " High technical contrast. \n  FOCUS: Anatomy blocking, camera perspective (Wide, Medium, Close-up), and environmental spatial logic."

/-- The `for`-loop of the source: the data of the first part whose
`inlineData` is present. -/
def firstInlineData : List GenPart → Option String
  | [] => none
  | p :: rest =>
      match p.inlineData with
      | some d => some d.data
      | none => firstInlineData rest

/-- `generatePageImage(page, allCharacters)` with the service as an oracle
from the full prompt to the image response. -/
def generatePageImage (svc : String → ImageResponse) (page : Page)
    (allCharacters : List Character) : Except String String :=
  match (svc (pageImagePrompt page allCharacters)).candidates.head? with
  | none => Except.error "TypeError"
  | some cand =>
      match firstInlineData cand.content.parts with
      | some d => Except.ok ("data:image/png;base64," ++ d)
      | none => Except.error "Drafting system error."

/-! ## Decoding parsed JSON into the typed data model

Modelled from the spec: the runtime performs no decoding (the client trusts the
response shape after parsing), so the correspondence between a parsed JSON
value and the `StoryboardData` shape of the schema is expressed by an explicit
decoder; required fields follow the `required` lists of the response schema in
the source, `dialogue` is optional, and `timeOfDay`/`imageUrl`/`isGenerating`
are never supplied by the service. -/

def jGet (fields : List (String × JValue)) (k : String) : Option JValue :=
  (fields.find? (fun kv => kv.1 == k)).map (fun kv => kv.2)

def asStr : Option JValue → Option String
  | some (JValue.str s) => some s
  | _ => none

def asInt : Option JValue → Option Int
  | some (JValue.num n) => some n
  | _ => none

def asArr : Option JValue → Option (List JValue)
  | some (JValue.arr l) => some l
  | _ => none

def decodeCharacter : JValue → Option Character
  | JValue.obj f => do
      let id ← asStr (jGet f "id")
      let name ← asStr (jGet f "name")
      let appearance ← asStr (jGet f "appearance")
      some ⟨id, name, appearance⟩
  | _ => none

def decodeScene : JValue → Option Scene
  | JValue.obj f => do
      let id ← asStr (jGet f "id")
      let sceneNumber ← asInt (jGet f "sceneNumber")
      let location ← asStr (jGet f "location")
      let action ← asStr (jGet f "action")
      let visualPrompt ← asStr (jGet f "visualPrompt")
      some ⟨id, sceneNumber, location, none, action, asStr (jGet f "dialogue"),
            visualPrompt, none, none⟩
  | _ => none

def decodePage : JValue → Option Page
  | JValue.obj f => do
      let id ← asStr (jGet f "id")
      let pageNumber ← asInt (jGet f "pageNumber")
      let layout ← asStr (jGet f "pageLayoutDescription")
      let sceneVals ← asArr (jGet f "scenes")
      let scenes ← sceneVals.mapM decodeScene
      some ⟨id, pageNumber, scenes, none, none, layout⟩
  | _ => none

def decodeStoryboardData : JValue → Option StoryboardData
  | JValue.obj f => do
      let title ← asStr (jGet f "title")
      let charVals ← asArr (jGet f "characters")
      let characters ← charVals.mapM decodeCharacter
      let pageVals ← asArr (jGet f "pages")
      let pages ← pageVals.mapM decodePage
      some ⟨title, characters, pages⟩
  | _ => none

/-- Scene numbers of `l` are `n, n+1, n+2, ...` in order. -/
def numberedFrom (n : Nat) : List Scene → Bool
  | [] => true
  | s :: t => (s.sceneNumber == (n : Int)) && numberedFrom (n + 1) t

/-- Decidable check of the spec's grid invariant for a request of `P` pages
with `K` panels per page: every page has exactly `K` scenes numbered
contiguously from 1, and total pages times panels-per-page equals the
originally requested panel count `P * K`. -/
def gridOk (P K : Nat) (sb : StoryboardData) : Bool :=
  (sb.pages.length * K == P * K) &&
    sb.pages.all (fun pg => (pg.scenes.length == K) && numberedFrom 1 pg.scenes)

/-! ## Orchestrator (`App.tsx`)

The React component state is an explicit record; each handler is a state
transformer.  Service results are supplied by oracles at the typed level the
component consumes them (`App.tsx` trusts the shape of the service results).
Every handler additionally returns the trace of service calls and storyboard
mutations it performs, in order; the single-threaded `await` sequencing of the
source becomes sequential composition. -/

inductive AppStep where
  | input
  | development
  | storyboard
deriving DecidableEq, Repr

inductive Mode where
  | quick
  | creative
deriving DecidableEq, Repr

structure AppState where
  step : AppStep
  mode : Mode
  input : String
  loading : Bool
  developedStory : Option DevelopedStory
  data : Option StoryboardData
  error : Option String
  numPages : Nat
  numPanelsPerPage : Nat
  zoomedPage : Option String
  editingSceneId : Option String
  editBuffer : String
deriving DecidableEq, Repr

/-- Trace events: the service calls issued and the per-page storyboard
mutations performed, in program order. -/
inductive SvcEv where
  /-- `developStoryConcept(input, totalPanels)` was invoked. -/
  | callDev (idea : String) (panels : Nat)
  /-- `generateStoryboardFromText(text, numPages, numPanelsPerPage)` was invoked. -/
  | callGen (text : String) (pages panels : Nat)
  /-- `setData` marked the page in-progress (`isGenerating: true`). -/
  | mark (pageId : String)
  /-- `generatePageImage(target, characters)` was invoked for the page. -/
  | callIllus (pageId : String)
  /-- success: `setData` attached `imageUrl` and cleared `isGenerating`. -/
  | settleOk (pageId : String) (url : String)
  /-- failure: the error was caught, `setData` cleared `isGenerating` only. -/
  | settleFail (pageId : String)
deriving DecidableEq, Repr

/-- `err.message || fallback` of the catch blocks. -/
def jsMsgOr (msg fallback : String) : String :=
  if msg = "" then fallback else msg

/-- ASCII whitespace as trimmed by JavaScript `String.prototype.trim`. -/
def isWsChar (c : Char) : Bool :=
  c = ' ' ∨ c = '\t' ∨ c = '\n' ∨ c = '\r'

/-- Model of JavaScript `input.trim()`: drop whitespace from both ends. -/
def jsTrim (s : String) : String :=
  String.mk (((s.data.dropWhile isWsChar).reverse.dropWhile isWsChar).reverse)

/-- `handleGeneratePage(pageId, currentData?)`.  `illus` is the oracle for
`generatePageImage` applied to the target page and the character roster. -/
def handleGeneratePage (illus : Page → List Character → Except String String)
    (pageId : String) (currentData : Option StoryboardData) (st : AppState) :
    AppState × List SvcEv :=
  match currentData.orElse (fun _ => st.data) with
  | none => (st, [])
  | some activeData =>
    let st1 := { st with
      data := st.data.map (fun d => { d with
        pages := d.pages.map (fun p =>
          if p.id = pageId then { p with isGenerating := some true } else p) }) }
    match activeData.pages.find? (fun p => p.id == pageId) with
    | none => (st1, [SvcEv.mark pageId])
    | some target =>
      match illus target activeData.characters with
      | Except.ok imageUrl =>
          ({ st1 with
             data := st1.data.map (fun d => { d with
               pages := d.pages.map (fun p =>
                 if p.id = pageId then
                   { p with imageUrl := some imageUrl, isGenerating := some false }
                 else p) }) },
           [SvcEv.mark pageId, SvcEv.callIllus pageId, SvcEv.settleOk pageId imageUrl])
      | Except.error _ =>
          ({ st1 with
             data := st1.data.map (fun d => { d with
               pages := d.pages.map (fun p =>
                 if p.id = pageId then { p with isGenerating := some false } else p) }) },
           [SvcEv.mark pageId, SvcEv.callIllus pageId, SvcEv.settleFail pageId])

/-- `renderAllPagesSequentially(currentData)`: a strictly sequential loop over
the pages (the fixed 100 ms pause of the source is timing only and has no
state effect). -/
def renderAllPagesSequentially (illus : Page → List Character → Except String String)
    (currentData : StoryboardData) (st : AppState) : AppState × List SvcEv :=
  currentData.pages.foldl
    (fun acc p =>
      let r := handleGeneratePage illus p.id (some currentData) acc.1
      (r.1, acc.2 ++ r.2))
    (st, [])

/-- `handleStartProduction()`.  `dev` and `gen` are the typed-level oracles for
`developStoryConcept` and `generateStoryboardFromText`. -/
def handleStartProduction (dev : String → Nat → Except String DevelopedStory)
    (gen : String → Nat → Nat → Except String StoryboardData)
    (illus : Page → List Character → Except String String)
    (st : AppState) : AppState × List SvcEv :=
  if jsTrim st.input = "" then (st, [])
  else
    let st1 := { st with loading := true, error := none }
    match st1.mode with
    | Mode.creative =>
        let totalPanels := st1.numPages * st1.numPanelsPerPage
        match dev st1.input totalPanels with
        | Except.ok result =>
            ({ st1 with developedStory := some result, step := AppStep.development,
                        loading := false },
             [SvcEv.callDev st1.input totalPanels])
        | Except.error msg =>
            ({ st1 with
               error := some (jsMsgOr msg "Production failed. Please refine your vision."),
               loading := false },
             [SvcEv.callDev st1.input totalPanels])
    | Mode.quick =>
        match gen st1.input st1.numPages st1.numPanelsPerPage with
        | Except.ok result =>
            let st2 := { st1 with data := some result, step := AppStep.storyboard }
            let r := renderAllPagesSequentially illus result st2
            ({ r.1 with loading := false },
             SvcEv.callGen st1.input st1.numPages st1.numPanelsPerPage :: r.2)
        | Except.error msg =>
            ({ st1 with
               error := some (jsMsgOr msg "Production failed. Please refine your vision."),
               loading := false },
             [SvcEv.callGen st1.input st1.numPages st1.numPanelsPerPage])

/-- `handleBuildManga()`. -/
def handleBuildManga (gen : String → Nat → Nat → Except String StoryboardData)
    (illus : Page → List Character → Except String String)
    (st : AppState) : AppState × List SvcEv :=
  match st.developedStory with
  | none => (st, [])
  | some developedStory =>
    let st1 := { st with loading := true, error := none }
    match gen developedStory.screenplay st1.numPages st1.numPanelsPerPage with
    | Except.ok result =>
        let st2 := { st1 with data := some result, step := AppStep.storyboard }
        let r := renderAllPagesSequentially illus result st2
        ({ r.1 with loading := false },
         SvcEv.callGen developedStory.screenplay st1.numPages st1.numPanelsPerPage :: r.2)
    | Except.error msg =>
        ({ st1 with
           error := some (jsMsgOr msg "Critical logic error in sequence generation."),
           loading := false },
         [SvcEv.callGen developedStory.screenplay st1.numPages st1.numPanelsPerPage])

/-- `startEditing(scene)`. -/
def startEditing (scene : Scene) (st : AppState) : AppState :=
  { st with editingSceneId := some scene.id, editBuffer := scene.action }

/-- `saveEdit()`.  The guard `!data || !editingSceneId` returns early also when
the edited identifier is the empty string (falsy in JavaScript). -/
def saveEdit (st : AppState) : AppState × List SvcEv :=
  match st.data, st.editingSceneId with
  | some d, some sid =>
      if sid = "" then (st, [])
      else
        ({ st with
           data := some { d with
             pages := d.pages.map (fun p => { p with
               scenes := p.scenes.map (fun s =>
                 if s.id = sid then { s with action := st.editBuffer } else s) }) },
           editingSceneId := none },
         [])
  | _, _ => (st, [])

/-! ## Helper definitions for the theorems -/

/-- The net effect of one successful or failed illustration call on the target
page `q`, where `t` is the page the request was built from. -/
def settleTarget (illus : Page → List Character → Except String String)
    (chars : List Character) (t q : Page) : Page :=
  match illus t chars with
  | Except.ok url => { q with imageUrl := some url, isGenerating := some false }
  | Except.error _ => { q with isGenerating := some false }

/-- The per-page transformation `handleGeneratePage` applies to the stored
pages when the target found for `pid` is `t`. -/
def stepFn (illus : Page → List Character → Except String String)
    (chars : List Character) (t : Page) (pid : String) (q : Page) : Page :=
  if q.id = pid then settleTarget illus chars t q else q

/-- The settling event of one illustration call. -/
def evOfTarget (illus : Page → List Character → Except String String)
    (chars : List Character) (t : Page) (pid : String) : SvcEv :=
  match illus t chars with
  | Except.ok url => SvcEv.settleOk pid url
  | Except.error _ => SvcEv.settleFail pid

/-- The net effect of the loop on a page that is its own illustration target. -/
def settlePage (illus : Page → List Character → Except String String)
    (chars : List Character) (p : Page) : Page :=
  settleTarget illus chars p p

/-- The event sequence of the sequential illustration loop: for each page in
stored order, mark in-progress, call the illustrator, settle — before the next
page is touched. -/
def illusTrace (illus : Page → List Character → Except String String)
    (chars : List Character) : List Page → List SvcEv
  | [] => []
  | p :: t =>
      SvcEv.mark p.id :: SvcEv.callIllus p.id :: evOfTarget illus chars p p.id ::
        illusTrace illus chars t

/-- `a` occurs as a contiguous substring of `b`. -/
def occursIn (a b : String) : Prop :=
  ∃ l r : List Char, b.data = l ++ a.data ++ r

/-! ## Infrastructure lemmas -/

theorem str_data_append (a b : String) : (a ++ b).data = a.data ++ b.data := rfl

theorem occursIn_rfl (a : String) : occursIn a a := ⟨[], [], by simp⟩

theorem occursIn_left {a b : String} (c : String) (h : occursIn a b) : occursIn a (c ++ b) := by
  obtain ⟨l, r, hlr⟩ := h
  exact ⟨c.data ++ l, r, by simp [str_data_append, hlr]⟩

theorem occursIn_right {a b : String} (c : String) (h : occursIn a b) : occursIn a (b ++ c) := by
  obtain ⟨l, r, hlr⟩ := h
  exact ⟨l, r ++ c.data, by simp [str_data_append, hlr]⟩

theorem occursIn_joinSep (sep x : String) : ∀ l : List String, x ∈ l → occursIn x (joinSep sep l)
  | [], hx => nomatch hx
  | [a], hx => by
      have hxa : x = a := by simpa using hx
      subst hxa
      simpa [joinSep] using occursIn_rfl x
  | a :: b :: rest, hx => by
      rcases List.mem_cons.mp hx with h | h
      · subst h
        simpa [joinSep] using
          occursIn_right (joinSep sep (b :: rest)) (occursIn_right sep (occursIn_rfl x))
      · simpa [joinSep] using
          occursIn_left (a ++ sep) (occursIn_joinSep sep x (b :: rest) h)

theorem forall2_map_self {α β : Type} (R : α → β → Prop) (f : α → β) :
    ∀ l : List α, (∀ a ∈ l, R a (f a)) → List.Forall₂ R l (l.map f) := by
  intro l
  induction l with
  | nil => intro _; simp
  | cons a tl ih =>
      intro h
      simpa using List.Forall₂.cons (h a (by simp)) (ih fun a ha => h a (by simp [ha]))

theorem find_self_of_nodup :
    ∀ (l : List Page) (p : Page), p ∈ l → (l.map Page.id).Nodup →
      l.find? (fun q => q.id == p.id) = some p := by
  intro l
  induction l with
  | nil => intro p hp; cases hp
  | cons a t ih =>
      intro p hp hnd
      rw [List.map_cons] at hnd
      rcases List.nodup_cons.mp hnd with ⟨ha, ht⟩
      rcases List.mem_cons.mp hp with h | h
      · subst h
        exact List.find?_cons_of_pos _ (by simp)
      · have hne : (a.id == p.id) = false := by
          have hmem : p.id ∈ t.map Page.id := List.mem_map_of_mem _ h
          simp only [beq_eq_false_iff_ne, ne_eq]
          intro hcontra
          exact ha (hcontra ▸ hmem)
        rw [List.find?_cons_of_neg _ (by simp [hne])]
        exact ih p h ht

theorem settleTarget_id (illus : Page → List Character → Except String String)
    (chars : List Character) (t q : Page) : (settleTarget illus chars t q).id = q.id := by
  unfold settleTarget
  cases illus t chars <;> rfl

theorem markSettle_ok (pid url : String) (l : List Page) :
    (l.map (fun p => if p.id = pid then { p with isGenerating := some true } else p)).map
      (fun p => if p.id = pid then
        { p with imageUrl := some url, isGenerating := some false } else p)
    = l.map (fun p => if p.id = pid then
        { p with imageUrl := some url, isGenerating := some false } else p) := by
  rw [List.map_map]
  apply List.map_congr_left
  intro p _
  by_cases hp : p.id = pid <;> simp [hp]

theorem markSettle_err (pid : String) (l : List Page) :
    (l.map (fun p => if p.id = pid then { p with isGenerating := some true } else p)).map
      (fun p => if p.id = pid then { p with isGenerating := some false } else p)
    = l.map (fun p => if p.id = pid then { p with isGenerating := some false } else p) := by
  rw [List.map_map]
  apply List.map_congr_left
  intro p _
  by_cases hp : p.id = pid <;> simp [hp]

theorem handleGeneratePage_found (illus : Page → List Character → Except String String)
    (pid : String) (d0 : StoryboardData) (st : AppState) (d : StoryboardData) (t : Page)
    (hd : st.data = some d)
    (hfind : d0.pages.find? (fun q => q.id == pid) = some t) :
    handleGeneratePage illus pid (some d0) st =
      ({ st with data := some { d with
           pages := d.pages.map (stepFn illus d0.characters t pid) } },
       [SvcEv.mark pid, SvcEv.callIllus pid, evOfTarget illus d0.characters t pid]) := by
  unfold handleGeneratePage
  cases hI : illus t d0.characters with
  | ok url =>
      simp [Option.orElse, hfind, hd, hI, stepFn, settleTarget, evOfTarget, markSettle_ok]
      intro a _
      by_cases hp : a.id = pid <;> simp [hp]
  | error e =>
      simp [Option.orElse, hfind, hd, hI, stepFn, settleTarget, evOfTarget, markSettle_err]
      intro a _
      by_cases hp : a.id = pid <;> simp [hp]

theorem renderAll_core (illus : Page → List Character → Except String String)
    (d0 : StoryboardData) :
    ∀ (l : List Page) (st : AppState) (acc : List SvcEv) (d : StoryboardData),
      st.data = some d →
      (∀ p ∈ l, d0.pages.find? (fun q => q.id == p.id) = some p) →
      l.foldl (fun a p =>
          let r := handleGeneratePage illus p.id (some d0) a.1
          (r.1, a.2 ++ r.2)) (st, acc)
        = ({ st with data := some { d with
              pages := l.foldl
                (fun ps p => ps.map (stepFn illus d0.characters p p.id)) d.pages } },
           acc ++ illusTrace illus d0.characters l) := by
  intro l
  induction l with
  | nil =>
      intro st acc d hd _
      simp only [List.foldl_nil, illusTrace, List.append_nil]
      cases st
      simp_all
  | cons p tl ih =>
      intro st acc d hd hfind
      rw [List.foldl_cons]
      simp only
      rw [handleGeneratePage_found illus p.id d0 st d p hd (hfind p (by simp))]
      rw [ih _ _ _ rfl (fun q hq => hfind q (by simp [hq]))]
      simp [illusTrace, List.foldl_cons]

theorem foldl_pages_map (f : Page → Page → Page) :
    ∀ (l : List Page) (ps : List Page),
      l.foldl (fun ps p => ps.map (f p)) ps
        = ps.map (fun q => l.foldl (fun q p => f p q) q) := by
  intro l
  induction l with
  | nil => intro ps; simp
  | cons a tl ih =>
      intro ps
      rw [List.foldl_cons, ih, List.map_map]
      rfl

theorem foldl_stepFn_not_mem (illus : Page → List Character → Except String String)
    (chars : List Character) :
    ∀ (l : List Page) (q : Page), (∀ p ∈ l, p.id ≠ q.id) →
      l.foldl (fun q p => stepFn illus chars p p.id q) q = q := by
  intro l
  induction l with
  | nil => intro q _; simp
  | cons a tl ih =>
      intro q h
      rw [List.foldl_cons]
      have : stepFn illus chars a a.id q = q := by
        unfold stepFn
        rw [if_neg]
        exact fun hc => h a (by simp) (hc ▸ rfl)
      rw [this]
      exact ih q fun p hp => h p (by simp [hp])

theorem foldl_stepFn_mem (illus : Page → List Character → Except String String)
    (chars : List Character) :
    ∀ (l : List Page) (p : Page), p ∈ l → (l.map Page.id).Nodup →
      l.foldl (fun q pp => stepFn illus chars pp pp.id q) p = settlePage illus chars p := by
  intro l
  induction l with
  | nil => intro p hp; cases hp
  | cons a tl ih =>
      intro p hp hnd
      rw [List.map_cons] at hnd
      rcases List.nodup_cons.mp hnd with ⟨ha, ht⟩
      rw [List.foldl_cons]
      rcases List.mem_cons.mp hp with h | h
      · subst h
        have h1 : stepFn illus chars p p.id p = settlePage illus chars p := by
          unfold stepFn settlePage
          rw [if_pos rfl]
        rw [h1]
        apply foldl_stepFn_not_mem
        intro q hq hc
        apply ha
        unfold settlePage at hc
        rw [settleTarget_id] at hc
        exact hc ▸ List.mem_map_of_mem Page.id hq
      · have h1 : stepFn illus chars a a.id p = p := by
          unfold stepFn
          rw [if_neg]
          intro hc
          exact ha (hc ▸ List.mem_map_of_mem Page.id h)
        rw [h1]
        exact ih p h ht

/-- Net effect of the sequential illustration loop: every stored page is
settled by its own (single) illustration call, in stored order, and nothing
else of the application state changes. -/
theorem renderAll_eq (illus : Page → List Character → Except String String)
    (d0 : StoryboardData) (st : AppState)
    (hd : st.data = some d0)
    (hnd : (d0.pages.map Page.id).Nodup) :
    renderAllPagesSequentially illus d0 st =
      ({ st with data := some { d0 with
          pages := d0.pages.map (settlePage illus d0.characters) } },
       illusTrace illus d0.characters d0.pages) := by
  unfold renderAllPagesSequentially
  rw [renderAll_core illus d0 d0.pages st [] d0 hd
      (fun p hp => find_self_of_nodup d0.pages p hp hnd)]
  rw [foldl_pages_map]
  simp only [List.nil_append]
  rw [List.map_congr_left
      (fun q hq => foldl_stepFn_mem illus d0.characters d0.pages q hq hnd)]

theorem numberedFrom_get :
    ∀ (l : List Scene) (n : Nat), numberedFrom n l = true →
      ∀ i (hi : i < l.length), (l.get ⟨i, hi⟩).sceneNumber = (n : Int) + i := by
  intro l
  induction l with
  | nil => intro n _ i hi; cases hi
  | cons s t ih =>
      intro n h i hi
      unfold numberedFrom at h
      rcases (Bool.and_eq_true _ _).mp h with ⟨h1, h2⟩
      cases i with
      | zero => simpa using beq_iff_eq.mp h1
      | succ j =>
          have := ih (n + 1) h2 j (by simpa using Nat.lt_of_succ_lt_succ hi)
          simp only [List.get] at this ⊢
          rw [this]
          push_cast
          ring

theorem firstInlineData_none :
    ∀ l : List GenPart, (∀ part ∈ l, part.inlineData = none) → firstInlineData l = none := by
  intro l
  induction l with
  | nil => intro _; rfl
  | cons p t ih =>
      intro h
      unfold firstInlineData
      rw [h p (by simp)]
      exact ih fun q hq => h q (by simp [hq])

/-! ## Claims -/

/-- C9: if the seed input is empty or consists only of whitespace, the guard
`if (!input.trim()) return;` fires: `handleStartProduction` leaves the entire
application state unchanged and issues no generation call. -/
theorem claim_C9 (dev : String → Nat → Except String DevelopedStory)
    (gen : String → Nat → Nat → Except String StoryboardData)
    (illus : Page → List Character → Except String String)
    (st : AppState) (h : jsTrim st.input = "") :
    handleStartProduction dev gen illus st = (st, []) := by
  unfold handleStartProduction
  rw [if_pos h]

theorem claim_C9_witness :
    (jsTrim (AppState.mk AppStep.input Mode.creative "   " false none none none 5 10 none none
        "").input = "") ∧
    handleStartProduction (fun _ _ => Except.error "d") (fun _ _ _ => Except.error "g")
        (fun _ _ => Except.error "i")
        (AppState.mk AppStep.input Mode.creative "   " false none none none 5 10 none none "")
      = (AppState.mk AppStep.input Mode.creative "   " false none none none 5 10 none none "",
         []) :=
  ⟨by decide,
   claim_C9 (fun _ _ => Except.error "d") (fun _ _ _ => Except.error "g")
     (fun _ _ => Except.error "i")
     (AppState.mk AppStep.input Mode.creative "   " false none none none 5 10 none none "")
     (by decide)⟩

/-- C10: whenever `generatePageImage` returns successfully, the result is the
`data:image/png;base64,` prefix followed by the base64 data of the first
inline-image part of the response, and in particular is non-empty. -/
theorem claim_C10 (svc : String → ImageResponse) (page : Page)
    (chars : List Character) (s : String)
    (h : generatePageImage svc page chars = Except.ok s) :
    ∃ cand d, (svc (pageImagePrompt page chars)).candidates.head? = some cand ∧
      firstInlineData cand.content.parts = some d ∧
      s = "data:image/png;base64," ++ d ∧ s ≠ "" := by
  unfold generatePageImage at h
  split at h
  next hc => cases h
  next cand hc =>
    split at h
    next d hf =>
        have hs : "data:image/png;base64," ++ d = s := by injection h
        refine ⟨cand, d, hc, hf, hs.symm, ?_⟩
        intro h0
        rw [← hs] at h0
        have h1 : ("data:image/png;base64," ++ d).data = "".data := congrArg String.data h0
        rw [str_data_append] at h1
        simp at h1
    next hf => cases h

theorem claim_C10_witness :
    generatePageImage
        (fun _ => ImageResponse.mk [Candidate.mk (ContentObj.mk
          [GenPart.mk none (some (InlineData.mk "QUJD"))])])
        (Page.mk "p1" 1 [] none none "L") []
      = Except.ok "data:image/png;base64,QUJD" ∧
    (∃ cand d,
      ((fun (_ : String) => ImageResponse.mk [Candidate.mk (ContentObj.mk
          [GenPart.mk none (some (InlineData.mk "QUJD"))])])
        (pageImagePrompt (Page.mk "p1" 1 [] none none "L") [])).candidates.head? = some cand ∧
      firstInlineData cand.content.parts = some d ∧
      "data:image/png;base64,QUJD" = "data:image/png;base64," ++ d ∧
      "data:image/png;base64,QUJD" ≠ "") :=
  ⟨rfl,
   claim_C10
     (fun _ => ImageResponse.mk [Candidate.mk (ContentObj.mk
       [GenPart.mk none (some (InlineData.mk "QUJD"))])])
     (Page.mk "p1" 1 [] none none "L") [] "data:image/png;base64,QUJD" rfl⟩

/-- C2 counterexample: a service response containing no inline image part
because it has no candidates at all makes `generatePageImage` fail with the
property-access `TypeError` of `response.candidates[0].content.parts`, not
with the designated no-image error `"Drafting system error."`; the claim's
"clearly identifiable no-image terminal error" therefore does not hold of
every such response. -/
theorem claim_C2_counterexample :
    generatePageImage (fun _ => ImageResponse.mk []) (Page.mk "p1" 1 [] none none "L") []
        = Except.error "TypeError" ∧
    "TypeError" ≠ "Drafting system error." :=
  ⟨rfl, by decide⟩

/-- C2 (amended): for every service response with at least one candidate whose
content contains no inline image part, `generatePageImage` fails with the
designated no-image terminal error `"Drafting system error."` and in
particular never returns any image handle, empty or otherwise.  (A response
with no candidates at all also never yields an empty-string handle, but fails
with a property-access error instead of the designated one; see the
counterexample.) -/
theorem claim_C2 (svc : String → ImageResponse) (page : Page) (chars : List Character)
    (cand : Candidate)
    (hc : (svc (pageImagePrompt page chars)).candidates.head? = some cand)
    (hno : ∀ part ∈ cand.content.parts, part.inlineData = none) :
    generatePageImage svc page chars = Except.error "Drafting system error." ∧
    ∀ s, generatePageImage svc page chars ≠ Except.ok s := by
  have hmain : generatePageImage svc page chars = Except.error "Drafting system error." := by
    unfold generatePageImage
    split
    next hc2 => rw [hc] at hc2; cases hc2
    next cand2 hc2 =>
      rw [hc] at hc2
      have he : cand = cand2 := by injection hc2
      subst he
      rw [firstInlineData_none _ hno]
  exact ⟨hmain, fun s hs => by rw [hmain] at hs; cases hs⟩

theorem claim_C2_witness :
    (((fun (_ : String) => ImageResponse.mk [Candidate.mk (ContentObj.mk
        [GenPart.mk (some "no image here") none])])
       (pageImagePrompt (Page.mk "p1" 1 [] none none "L") [])).candidates.head?
      = some (Candidate.mk (ContentObj.mk [GenPart.mk (some "no image here") none]))) ∧
    (∀ part ∈ (Candidate.mk (ContentObj.mk
        [GenPart.mk (some "no image here") none])).content.parts,
      part.inlineData = none) ∧
    (generatePageImage
        (fun _ => ImageResponse.mk [Candidate.mk (ContentObj.mk
          [GenPart.mk (some "no image here") none])])
        (Page.mk "p1" 1 [] none none "L") []
      = Except.error "Drafting system error." ∧
     ∀ s, generatePageImage
        (fun _ => ImageResponse.mk [Candidate.mk (ContentObj.mk
          [GenPart.mk (some "no image here") none])])
        (Page.mk "p1" 1 [] none none "L") []
      ≠ Except.ok s) :=
  ⟨rfl, by decide,
   claim_C2
     (fun _ => ImageResponse.mk [Candidate.mk (ContentObj.mk
       [GenPart.mk (some "no image here") none])])
     (Page.mk "p1" 1 [] none none "L") []
     (Candidate.mk (ContentObj.mk [GenPart.mk (some "no image here") none]))
     rfl (by decide)⟩

/-- C7: the composite prompt built by `generatePageImage` enumerates the
page's panel count together with the left-to-right/top-to-bottom reading
order, inlines the appearance string of every character of the roster (hence
of every character referenced), concatenates each panel's visual prompt with
its action beat, and fixes the monochrome technical-sketch rendering style. -/
theorem claim_C7 (page : Page) (allCharacters : List Character)
    (c : Character) (hc : c ∈ allCharacters) (s : Scene) (hs : s ∈ page.scenes) :
    occursIn ("GRID: " ++ toString page.scenes.length
        ++ " panels, reading strictly LEFT-TO-RIGHT, TOP-TO-BOTTOM (row by row).")
      (pageImagePrompt page allCharacters) ∧
    occursIn (characterLine c) (pageImagePrompt page allCharacters) ∧
    occursIn (sceneLine s) (pageImagePrompt page allCharacters) ∧
    occursIn
      "STYLE: Rough director's ink sketch. Stark black lines on white paper. No colors, no gray tones."
      (pageImagePrompt page allCharacters) := by
  unfold pageImagePrompt
  refine ⟨?_, ?_, ?_, ?_⟩
  · exact occursIn_right _ (occursIn_right _ (occursIn_right _ (occursIn_right _
      (occursIn_right _ (occursIn_right _ (occursIn_right _
        (occursIn_left _ (occursIn_rfl _))))))))
  · have h1 : occursIn (characterLine c) (characterContext allCharacters) :=
      occursIn_joinSep ". " (characterLine c) (allCharacters.map characterLine)
        (List.mem_map_of_mem characterLine hc)
    exact occursIn_right _ (occursIn_right _ (occursIn_right _ (occursIn_right _
      (occursIn_right _ (occursIn_left _ h1)))))
  · have h1 : occursIn (sceneLine s) (scenesPrompts page) :=
      occursIn_joinSep ". " (sceneLine s) (page.scenes.map sceneLine)
        (List.mem_map_of_mem sceneLine hs)
    exact occursIn_right _ (occursIn_right _ (occursIn_right _ (occursIn_left _ h1)))
  · exact occursIn_right _ (occursIn_left _ (occursIn_rfl _))

theorem claim_C7_witness :
    (Character.mk "A" "Silhouette A" "tall featureless mannequin"
        ∈ [Character.mk "A" "Silhouette A" "tall featureless mannequin"]) ∧
    (Scene.mk "s1" 1 "dock" none "waves crash" none "wide shot of a dock" none none
        ∈ (Page.mk "p1" 1
            [Scene.mk "s1" 1 "dock" none "waves crash" none "wide shot of a dock" none none]
            none none "L").scenes) ∧
    (occursIn ("GRID: " ++ toString (Page.mk "p1" 1
          [Scene.mk "s1" 1 "dock" none "waves crash" none "wide shot of a dock" none none]
          none none "L").scenes.length
        ++ " panels, reading strictly LEFT-TO-RIGHT, TOP-TO-BOTTOM (row by row).")
      (pageImagePrompt (Page.mk "p1" 1
          [Scene.mk "s1" 1 "dock" none "waves crash" none "wide shot of a dock" none none]
          none none "L")
        [Character.mk "A" "Silhouette A" "tall featureless mannequin"]) ∧
     occursIn (characterLine (Character.mk "A" "Silhouette A" "tall featureless mannequin"))
      (pageImagePrompt (Page.mk "p1" 1
          [Scene.mk "s1" 1 "dock" none "waves crash" none "wide shot of a dock" none none]
          none none "L")
        [Character.mk "A" "Silhouette A" "tall featureless mannequin"]) ∧
     occursIn (sceneLine
        (Scene.mk "s1" 1 "dock" none "waves crash" none "wide shot of a dock" none none))
      (pageImagePrompt (Page.mk "p1" 1
          [Scene.mk "s1" 1 "dock" none "waves crash" none "wide shot of a dock" none none]
          none none "L")
        [Character.mk "A" "Silhouette A" "tall featureless mannequin"]) ∧
     occursIn
      "STYLE: Rough director's ink sketch. Stark black lines on white paper. No colors, no gray tones."
      (pageImagePrompt (Page.mk "p1" 1
          [Scene.mk "s1" 1 "dock" none "waves crash" none "wide shot of a dock" none none]
          none none "L")
        [Character.mk "A" "Silhouette A" "tall featureless mannequin"])) :=
  ⟨by decide, by decide,
   claim_C7
     (Page.mk "p1" 1
       [Scene.mk "s1" 1 "dock" none "waves crash" none "wide shot of a dock" none none]
       none none "L")
     [Character.mk "A" "Silhouette A" "tall featureless mannequin"]
     (Character.mk "A" "Silhouette A" "tall featureless mannequin") (by decide)
     (Scene.mk "s1" 1 "dock" none "waves crash" none "wide shot of a dock" none none)
     (by decide)⟩

/-- C1 counterexample: a response whose body is the non-empty string `"oops"`
fails to parse as JSON, and `developStoryConcept` then propagates the
`JSON.parse` exception past the function boundary (modelled by
`Except.error "SyntaxError"`) instead of returning an empty result object:
`JSON.parse(response.text || "\x7b\x7d")` only degrades to the empty object
when the text is absent or empty. -/
theorem claim_C1_counterexample :
    developStoryConcept (fun _ => TextResponse.mk (some "oops")) "idea" 1
      = Except.error "SyntaxError" := rfl

/-- C1 (amended): when the response text is absent or the empty string, both
text-generation functions return the empty result object `\x7b\x7d`; when the
text is non-empty but unparseable, the parse exception propagates past the
function boundary instead. -/
theorem claim_C1 (svcD svcG svcB svcGB : String → TextResponse)
    (idea text bad : String) (panels P K : Nat)
    (hD : (svcD (developContents idea panels)).text = none ∨
          (svcD (developContents idea panels)).text = some "")
    (hG : (svcG (storyboardContents text P K)).text = none ∨
          (svcG (storyboardContents text P K)).text = some "")
    (hB : (svcB (developContents idea panels)).text = some bad)
    (hGB : (svcGB (storyboardContents text P K)).text = some bad)
    (hbad : bad ≠ "")
    (hparse : parseJSON bad = none) :
    developStoryConcept svcD idea panels = Except.ok (JValue.obj []) ∧
    generateStoryboardFromText svcG text P K = Except.ok (JValue.obj []) ∧
    developStoryConcept svcB idea panels = Except.error "SyntaxError" ∧
    generateStoryboardFromText svcGB text P K = Except.error "SyntaxError" := by
  have hempty : parseJSON "\x7b\x7d" = some (JValue.obj []) := rfl
  refine ⟨?_, ?_, ?_, ?_⟩
  · unfold developStoryConcept
    rcases hD with h | h <;> simp [h, jsOrEmptyObj, hempty]
  · unfold generateStoryboardFromText
    rcases hG with h | h <;> simp [h, jsOrEmptyObj, hempty]
  · unfold developStoryConcept
    simp [hB, jsOrEmptyObj, hbad, hparse]
  · unfold generateStoryboardFromText
    simp [hGB, jsOrEmptyObj, hbad, hparse]

theorem claim_C1_witness :
    (((fun (_ : String) => TextResponse.mk none) (developContents "idea" 2)).text = none ∨
     ((fun (_ : String) => TextResponse.mk none) (developContents "idea" 2)).text = some "") ∧
    (((fun (_ : String) => TextResponse.mk (some ""))
        (storyboardContents "t" 1 2)).text = none ∨
     ((fun (_ : String) => TextResponse.mk (some ""))
        (storyboardContents "t" 1 2)).text = some "") ∧
    ((fun (_ : String) => TextResponse.mk (some "oops"))
        (developContents "idea" 2)).text = some "oops" ∧
    ((fun (_ : String) => TextResponse.mk (some "oops"))
        (storyboardContents "t" 1 2)).text = some "oops" ∧
    "oops" ≠ "" ∧
    parseJSON "oops" = none ∧
    (developStoryConcept (fun _ => TextResponse.mk none) "idea" 2
        = Except.ok (JValue.obj []) ∧
     generateStoryboardFromText (fun _ => TextResponse.mk (some "")) "t" 1 2
        = Except.ok (JValue.obj []) ∧
     developStoryConcept (fun _ => TextResponse.mk (some "oops")) "idea" 2
        = Except.error "SyntaxError" ∧
     generateStoryboardFromText (fun _ => TextResponse.mk (some "oops")) "t" 1 2
        = Except.error "SyntaxError") :=
  ⟨Or.inl rfl, Or.inr rfl, rfl, rfl, by decide, rfl,
   claim_C1 (fun _ => TextResponse.mk none) (fun _ => TextResponse.mk (some ""))
     (fun _ => TextResponse.mk (some "oops")) (fun _ => TextResponse.mk (some "oops"))
     "idea" "t" "oops" 2 1 2
     (Or.inl rfl) (Or.inr rfl) rfl rfl (by decide) rfl⟩

/-- C3: if the illustration call for one page fails during the sequential
loop, that page's in-progress flag is cleared and it is left without an image,
while every page (the failed one included) reaches a terminal state with its
in-progress flag false — pages whose call succeeded carry their image, pages
whose call failed are left unillustrated; the failure aborts nothing. -/
theorem claim_C3 (illus : Page → List Character → Except String String)
    (d0 : StoryboardData) (st : AppState) (p : Page) (e : String)
    (hd : st.data = some d0)
    (hnd : (d0.pages.map Page.id).Nodup)
    (hp : p ∈ d0.pages)
    (hfail : illus p d0.characters = Except.error e)
    (himg : p.imageUrl = none) :
    ∃ d1, (renderAllPagesSequentially illus d0 st).1.data = some d1 ∧
      (∃ p' ∈ d1.pages, p'.id = p.id ∧ p'.isGenerating = some false ∧ p'.imageUrl = none) ∧
      (∀ q ∈ d1.pages, q.isGenerating = some false) ∧
      (∀ q ∈ d0.pages, ∀ u, illus q d0.characters = Except.ok u →
        { q with imageUrl := some u, isGenerating := some false } ∈ d1.pages) ∧
      (∀ q ∈ d0.pages, ∀ e2, illus q d0.characters = Except.error e2 →
        { q with isGenerating := some false } ∈ d1.pages) := by
  rw [renderAll_eq illus d0 st hd hnd]
  refine ⟨_, rfl, ?_, ?_, ?_, ?_⟩
  · have hset : settlePage illus d0.characters p = { p with isGenerating := some false } := by
      unfold settlePage settleTarget
      rw [hfail]
    refine ⟨settlePage illus d0.characters p,
      List.mem_map_of_mem (settlePage illus d0.characters) hp, ?_, ?_, ?_⟩
    · rw [hset]
    · rw [hset]
    · rw [hset]
      exact himg
  · intro q hq
    rcases List.mem_map.mp hq with ⟨q0, _, rfl⟩
    unfold settlePage settleTarget
    cases illus q0 d0.characters <;> rfl
  · intro q hq u hu
    have hset : settlePage illus d0.characters q
        = { q with imageUrl := some u, isGenerating := some false } := by
      unfold settlePage settleTarget
      rw [hu]
    rw [← hset]
    exact List.mem_map_of_mem (settlePage illus d0.characters) hq
  · intro q hq e2 he2
    have hset : settlePage illus d0.characters q = { q with isGenerating := some false } := by
      unfold settlePage settleTarget
      rw [he2]
    rw [← hset]
    exact List.mem_map_of_mem (settlePage illus d0.characters) hq

theorem claim_C3_witness :
    ((AppState.mk AppStep.storyboard Mode.quick "i" false none
        (some (StoryboardData.mk "T" []
          [Page.mk "p1" 1 [] none none "L", Page.mk "p2" 2 [] none none "L",
           Page.mk "p3" 3 [] none none "L"]))
        none 5 10 none none "").data
      = some (StoryboardData.mk "T" []
          [Page.mk "p1" 1 [] none none "L", Page.mk "p2" 2 [] none none "L",
           Page.mk "p3" 3 [] none none "L"])) ∧
    ((StoryboardData.mk "T" []
        [Page.mk "p1" 1 [] none none "L", Page.mk "p2" 2 [] none none "L",
         Page.mk "p3" 3 [] none none "L"]).pages.map Page.id).Nodup ∧
    (Page.mk "p2" 2 [] none none "L"
      ∈ (StoryboardData.mk "T" []
          [Page.mk "p1" 1 [] none none "L", Page.mk "p2" 2 [] none none "L",
           Page.mk "p3" 3 [] none none "L"]).pages) ∧
    ((fun (p : Page) (_ : List Character) =>
        if p.id == "p2" then Except.error "E" else Except.ok "U")
      (Page.mk "p2" 2 [] none none "L")
      (StoryboardData.mk "T" []
        [Page.mk "p1" 1 [] none none "L", Page.mk "p2" 2 [] none none "L",
         Page.mk "p3" 3 [] none none "L"]).characters
      = Except.error "E") ∧
    (Page.mk "p2" 2 [] none none "L").imageUrl = none ∧
    (∃ d1, (renderAllPagesSequentially
        (fun (p : Page) (_ : List Character) =>
          if p.id == "p2" then Except.error "E" else Except.ok "U")
        (StoryboardData.mk "T" []
          [Page.mk "p1" 1 [] none none "L", Page.mk "p2" 2 [] none none "L",
           Page.mk "p3" 3 [] none none "L"])
        (AppState.mk AppStep.storyboard Mode.quick "i" false none
          (some (StoryboardData.mk "T" []
            [Page.mk "p1" 1 [] none none "L", Page.mk "p2" 2 [] none none "L",
             Page.mk "p3" 3 [] none none "L"]))
          none 5 10 none none "")).1.data = some d1 ∧
      (∃ p' ∈ d1.pages, p'.id = (Page.mk "p2" 2 [] none none "L").id ∧
        p'.isGenerating = some false ∧ p'.imageUrl = none) ∧
      (∀ q ∈ d1.pages, q.isGenerating = some false) ∧
      (∀ q ∈ (StoryboardData.mk "T" []
          [Page.mk "p1" 1 [] none none "L", Page.mk "p2" 2 [] none none "L",
           Page.mk "p3" 3 [] none none "L"]).pages, ∀ u,
        (fun (p : Page) (_ : List Character) =>
          if p.id == "p2" then Except.error "E" else Except.ok "U") q
          (StoryboardData.mk "T" []
            [Page.mk "p1" 1 [] none none "L", Page.mk "p2" 2 [] none none "L",
             Page.mk "p3" 3 [] none none "L"]).characters = Except.ok u →
        { q with imageUrl := some u, isGenerating := some false } ∈ d1.pages) ∧
      (∀ q ∈ (StoryboardData.mk "T" []
          [Page.mk "p1" 1 [] none none "L", Page.mk "p2" 2 [] none none "L",
           Page.mk "p3" 3 [] none none "L"]).pages, ∀ e2,
        (fun (p : Page) (_ : List Character) =>
          if p.id == "p2" then Except.error "E" else Except.ok "U") q
          (StoryboardData.mk "T" []
            [Page.mk "p1" 1 [] none none "L", Page.mk "p2" 2 [] none none "L",
             Page.mk "p3" 3 [] none none "L"]).characters = Except.error e2 →
        { q with isGenerating := some false } ∈ d1.pages)) :=
  ⟨rfl, by decide, by decide, rfl, rfl,
   claim_C3
     (fun (p : Page) (_ : List Character) =>
       if p.id == "p2" then Except.error "E" else Except.ok "U")
     (StoryboardData.mk "T" []
       [Page.mk "p1" 1 [] none none "L", Page.mk "p2" 2 [] none none "L",
        Page.mk "p3" 3 [] none none "L"])
     (AppState.mk AppStep.storyboard Mode.quick "i" false none
       (some (StoryboardData.mk "T" []
         [Page.mk "p1" 1 [] none none "L", Page.mk "p2" 2 [] none none "L",
          Page.mk "p3" 3 [] none none "L"]))
       none 5 10 none none "")
     (Page.mk "p2" 2 [] none none "L") "E" rfl (by decide) (by decide) rfl rfl⟩

/-- C5: the illustration loop is strictly sequential over the stored pages:
its event trace is exactly, for each page in stored order, mark-in-progress,
then the single illustration call, then the settling mutation (attach image
and clear the flag on success, clear the flag on failure) — all before the
next page's events; correspondingly the final storyboard is the stored pages
each settled by its own call.  The embedding of the `await`-sequenced loop is
sequential composition, so at most one illustration request is outstanding at
any point by construction. -/
theorem claim_C5 (illus : Page → List Character → Except String String)
    (d0 : StoryboardData) (st : AppState)
    (hd : st.data = some d0)
    (hnd : (d0.pages.map Page.id).Nodup) :
    (renderAllPagesSequentially illus d0 st).2 = illusTrace illus d0.characters d0.pages ∧
    (renderAllPagesSequentially illus d0 st).1 =
      { st with data := some { d0 with
          pages := d0.pages.map (settlePage illus d0.characters) } } := by
  rw [renderAll_eq illus d0 st hd hnd]
  exact ⟨rfl, rfl⟩

theorem claim_C5_witness :
    ((AppState.mk AppStep.storyboard Mode.quick "x" false none
        (some (StoryboardData.mk "S" []
          [Page.mk "a" 1 [] none none "La", Page.mk "b" 2 [] none none "Lb"]))
        none 2 4 none none "").data
      = some (StoryboardData.mk "S" []
          [Page.mk "a" 1 [] none none "La", Page.mk "b" 2 [] none none "Lb"])) ∧
    ((StoryboardData.mk "S" []
        [Page.mk "a" 1 [] none none "La", Page.mk "b" 2 [] none none "Lb"]).pages.map
      Page.id).Nodup ∧
    ((renderAllPagesSequentially (fun _ _ => Except.ok "IMG")
        (StoryboardData.mk "S" []
          [Page.mk "a" 1 [] none none "La", Page.mk "b" 2 [] none none "Lb"])
        (AppState.mk AppStep.storyboard Mode.quick "x" false none
          (some (StoryboardData.mk "S" []
            [Page.mk "a" 1 [] none none "La", Page.mk "b" 2 [] none none "Lb"]))
          none 2 4 none none "")).2
      = illusTrace (fun _ _ => Except.ok "IMG")
          (StoryboardData.mk "S" []
            [Page.mk "a" 1 [] none none "La", Page.mk "b" 2 [] none none "Lb"]).characters
          (StoryboardData.mk "S" []
            [Page.mk "a" 1 [] none none "La", Page.mk "b" 2 [] none none "Lb"]).pages ∧
     (renderAllPagesSequentially (fun _ _ => Except.ok "IMG")
        (StoryboardData.mk "S" []
          [Page.mk "a" 1 [] none none "La", Page.mk "b" 2 [] none none "Lb"])
        (AppState.mk AppStep.storyboard Mode.quick "x" false none
          (some (StoryboardData.mk "S" []
            [Page.mk "a" 1 [] none none "La", Page.mk "b" 2 [] none none "Lb"]))
          none 2 4 none none "")).1
      = { AppState.mk AppStep.storyboard Mode.quick "x" false none
            (some (StoryboardData.mk "S" []
              [Page.mk "a" 1 [] none none "La", Page.mk "b" 2 [] none none "Lb"]))
            none 2 4 none none "" with
          data := some { StoryboardData.mk "S" []
              [Page.mk "a" 1 [] none none "La", Page.mk "b" 2 [] none none "Lb"] with
            pages := (StoryboardData.mk "S" []
              [Page.mk "a" 1 [] none none "La",
               Page.mk "b" 2 [] none none "Lb"]).pages.map
                (settlePage (fun _ _ => Except.ok "IMG")
                  (StoryboardData.mk "S" []
                    [Page.mk "a" 1 [] none none "La",
                     Page.mk "b" 2 [] none none "Lb"]).characters) } }) :=
  ⟨rfl, by decide,
   claim_C5 (fun _ _ => Except.ok "IMG")
     (StoryboardData.mk "S" []
       [Page.mk "a" 1 [] none none "La", Page.mk "b" 2 [] none none "Lb"])
     (AppState.mk AppStep.storyboard Mode.quick "x" false none
       (some (StoryboardData.mk "S" []
         [Page.mk "a" 1 [] none none "La", Page.mk "b" 2 [] none none "Lb"]))
       none 2 4 none none "")
     rfl (by decide)⟩

/-- C4 counterexample: a per-page illustration failure inside the loop is only
logged (`console.error`) and the page's flag cleared — the user-facing `error`
field stays `none`, so the failure is not surfaced as a user-facing error
message as the claim requires: here `handleGeneratePage` performs the
illustration call, the call fails, and the resulting state's `error` is still
`none`. -/
theorem claim_C4_counterexample :
    (handleGeneratePage (fun _ _ => Except.error "boom") "p1"
        (some (StoryboardData.mk "T" [] [Page.mk "p1" 1 [] none none "L"]))
        (AppState.mk AppStep.storyboard Mode.quick "i" false none
          (some (StoryboardData.mk "T" [] [Page.mk "p1" 1 [] none none "L"]))
          none 5 10 none none "")).2
      = [SvcEv.mark "p1", SvcEv.callIllus "p1", SvcEv.settleFail "p1"] ∧
    (handleGeneratePage (fun _ _ => Except.error "boom") "p1"
        (some (StoryboardData.mk "T" [] [Page.mk "p1" 1 [] none none "L"]))
        (AppState.mk AppStep.storyboard Mode.quick "i" false none
          (some (StoryboardData.mk "T" [] [Page.mk "p1" 1 [] none none "L"]))
          none 5 10 none none "")).1.error
      = none :=
  ⟨rfl, rfl⟩

/-- C4 (amended): failures of the concept-development and
storyboard-structuring calls in `handleStartProduction` are captured at the
call site and surfaced as the user-facing error message (with the fallback
text when the thrown message is empty), each after exactly one service call; a
per-page illustration failure inside the loop is captured at its call site
(the function returns normally after the single call, with the settling
mutation clearing the flag) but is only logged, leaving the user-facing error
message unchanged; no operation is retried automatically — each trigger's
trace contains its service call exactly once. -/
theorem claim_C4 (dev : String → Nat → Except String DevelopedStory)
    (gen : String → Nat → Nat → Except String StoryboardData)
    (illus : Page → List Character → Except String String)
    (stC stQ stG : AppState) (msgD msgG e : String)
    (pid : String) (d0 dS : StoryboardData) (t : Page)
    (hC1 : ¬ jsTrim stC.input = "") (hC2 : stC.mode = Mode.creative)
    (hC3 : dev stC.input (stC.numPages * stC.numPanelsPerPage) = Except.error msgD)
    (hQ1 : ¬ jsTrim stQ.input = "") (hQ2 : stQ.mode = Mode.quick)
    (hQ3 : gen stQ.input stQ.numPages stQ.numPanelsPerPage = Except.error msgG)
    (hG1 : stG.data = some dS)
    (hG2 : d0.pages.find? (fun q => q.id == pid) = some t)
    (hG3 : illus t d0.characters = Except.error e) :
    handleStartProduction dev gen illus stC =
      ({ stC with
          loading := false,
          error := some (jsMsgOr msgD "Production failed. Please refine your vision.") },
       [SvcEv.callDev stC.input (stC.numPages * stC.numPanelsPerPage)]) ∧
    handleStartProduction dev gen illus stQ =
      ({ stQ with
          loading := false,
          error := some (jsMsgOr msgG "Production failed. Please refine your vision.") },
       [SvcEv.callGen stQ.input stQ.numPages stQ.numPanelsPerPage]) ∧
    (handleGeneratePage illus pid (some d0) stG).1.error = stG.error ∧
    (handleGeneratePage illus pid (some d0) stG).2 =
      [SvcEv.mark pid, SvcEv.callIllus pid, SvcEv.settleFail pid] := by
  refine ⟨?_, ?_, ?_, ?_⟩
  · unfold handleStartProduction
    rw [if_neg hC1]
    simp [hC2, hC3]
  · unfold handleStartProduction
    rw [if_neg hQ1]
    simp [hQ2, hQ3]
  · rw [handleGeneratePage_found illus pid d0 stG dS t hG1 hG2]
  · rw [handleGeneratePage_found illus pid d0 stG dS t hG1 hG2]
    simp [evOfTarget, hG3]

theorem claim_C4_witness :
    (¬ jsTrim (AppState.mk AppStep.input Mode.creative "seed" false none none none 5 10
        none none "").input = "") ∧
    (AppState.mk AppStep.input Mode.creative "seed" false none none none 5 10
        none none "").mode = Mode.creative ∧
    ((fun (_ : String) (_ : Nat) => (Except.error "" : Except String DevelopedStory))
      (AppState.mk AppStep.input Mode.creative "seed" false none none none 5 10
        none none "").input
      ((AppState.mk AppStep.input Mode.creative "seed" false none none none 5 10
        none none "").numPages *
       (AppState.mk AppStep.input Mode.creative "seed" false none none none 5 10
        none none "").numPanelsPerPage) = Except.error "") ∧
    (¬ jsTrim (AppState.mk AppStep.input Mode.quick "seed" false none none none 5 10
        none none "").input = "") ∧
    (AppState.mk AppStep.input Mode.quick "seed" false none none none 5 10
        none none "").mode = Mode.quick ∧
    ((fun (_ : String) (_ _ : Nat) => (Except.error "G" : Except String StoryboardData))
      (AppState.mk AppStep.input Mode.quick "seed" false none none none 5 10
        none none "").input
      (AppState.mk AppStep.input Mode.quick "seed" false none none none 5 10
        none none "").numPages
      (AppState.mk AppStep.input Mode.quick "seed" false none none none 5 10
        none none "").numPanelsPerPage = Except.error "G") ∧
    ((AppState.mk AppStep.storyboard Mode.quick "i" false none
        (some (StoryboardData.mk "T" [] [Page.mk "p1" 1 [] none none "L"]))
        none 5 10 none none "").data
      = some (StoryboardData.mk "T" [] [Page.mk "p1" 1 [] none none "L"])) ∧
    ((StoryboardData.mk "T" [] [Page.mk "p1" 1 [] none none "L"]).pages.find?
        (fun q => q.id == "p1") = some (Page.mk "p1" 1 [] none none "L")) ∧
    ((fun (_ : Page) (_ : List Character) => (Except.error "E" : Except String String))
      (Page.mk "p1" 1 [] none none "L")
      (StoryboardData.mk "T" [] [Page.mk "p1" 1 [] none none "L"]).characters
      = Except.error "E") ∧
    (handleStartProduction (fun _ _ => Except.error "")
        (fun _ _ _ => Except.error "G") (fun _ _ => Except.error "E")
        (AppState.mk AppStep.input Mode.creative "seed" false none none none 5 10
          none none "") =
      ({ AppState.mk AppStep.input Mode.creative "seed" false none none none 5 10
            none none "" with
          loading := false,
          error := some (jsMsgOr "" "Production failed. Please refine your vision.") },
       [SvcEv.callDev "seed" 50]) ∧
     handleStartProduction (fun _ _ => Except.error "")
        (fun _ _ _ => Except.error "G") (fun _ _ => Except.error "E")
        (AppState.mk AppStep.input Mode.quick "seed" false none none none 5 10
          none none "") =
      ({ AppState.mk AppStep.input Mode.quick "seed" false none none none 5 10
            none none "" with
          loading := false,
          error := some (jsMsgOr "G" "Production failed. Please refine your vision.") },
       [SvcEv.callGen "seed" 5 10]) ∧
     (handleGeneratePage (fun _ _ => Except.error "E") "p1"
        (some (StoryboardData.mk "T" [] [Page.mk "p1" 1 [] none none "L"]))
        (AppState.mk AppStep.storyboard Mode.quick "i" false none
          (some (StoryboardData.mk "T" [] [Page.mk "p1" 1 [] none none "L"]))
          none 5 10 none none "")).1.error
       = (AppState.mk AppStep.storyboard Mode.quick "i" false none
          (some (StoryboardData.mk "T" [] [Page.mk "p1" 1 [] none none "L"]))
          none 5 10 none none "").error ∧
     (handleGeneratePage (fun _ _ => Except.error "E") "p1"
        (some (StoryboardData.mk "T" [] [Page.mk "p1" 1 [] none none "L"]))
        (AppState.mk AppStep.storyboard Mode.quick "i" false none
          (some (StoryboardData.mk "T" [] [Page.mk "p1" 1 [] none none "L"]))
          none 5 10 none none "")).2
       = [SvcEv.mark "p1", SvcEv.callIllus "p1", SvcEv.settleFail "p1"]) :=
  ⟨by decide, rfl, rfl, by decide, rfl, rfl, rfl, by decide, rfl,
   claim_C4 (fun _ _ => Except.error "") (fun _ _ _ => Except.error "G")
     (fun _ _ => Except.error "E")
     (AppState.mk AppStep.input Mode.creative "seed" false none none none 5 10 none none "")
     (AppState.mk AppStep.input Mode.quick "seed" false none none none 5 10 none none "")
     (AppState.mk AppStep.storyboard Mode.quick "i" false none
       (some (StoryboardData.mk "T" [] [Page.mk "p1" 1 [] none none "L"]))
       none 5 10 none none "")
     "" "G" "E" "p1"
     (StoryboardData.mk "T" [] [Page.mk "p1" 1 [] none none "L"])
     (StoryboardData.mk "T" [] [Page.mk "p1" 1 [] none none "L"])
     (Page.mk "p1" 1 [] none none "L")
     (by decide) rfl rfl (by decide) rfl rfl rfl (by decide) rfl⟩

/-- C8 counterexample: the save guard `if (!data || !editingSceneId) return;`
treats an empty-string scene identifier as falsy, so saving an edit of a scene
whose identifier is the empty string leaves the state unchanged: the scene
with the matching (empty) identifier does not receive the edited action text,
contradicting the claim for that identifier. -/
theorem claim_C8_counterexample :
    saveEdit (AppState.mk AppStep.storyboard Mode.quick "i" false none
        (some (StoryboardData.mk "T" []
          [Page.mk "p1" 1 [Scene.mk "" 1 "loc" none "old" none "vp" none none]
            none none "L"]))
        none 5 10 none (some "") "new")
      = (AppState.mk AppStep.storyboard Mode.quick "i" false none
          (some (StoryboardData.mk "T" []
            [Page.mk "p1" 1 [Scene.mk "" 1 "loc" none "old" none "vp" none none]
              none none "L"]))
          none 5 10 none (some "") "new", []) ∧
    (AppState.mk AppStep.storyboard Mode.quick "i" false none
        (some (StoryboardData.mk "T" []
          [Page.mk "p1" 1 [Scene.mk "" 1 "loc" none "old" none "vp" none none]
            none none "L"]))
        none 5 10 none (some "") "new").editingSceneId = some "" ∧
    (Scene.mk "" 1 "loc" none "old" none "vp" none none).id = "" ∧
    (Scene.mk "" 1 "loc" none "old" none "vp" none none).action = "old" ∧
    "old" ≠ "new" :=
  ⟨rfl, rfl, rfl, rfl, by decide⟩

/-- C8 (amended): provided the edited scene identifier is non-empty (an empty
identifier is falsy in JavaScript and makes the save guard return early),
saving mutates, across all pages, exactly the scenes whose identifier equals
the edited identifier, setting their action field to the edit buffer; every
other field of every scene and page is unchanged, no server call is made, and
of the remaining application state only the editing flag is cleared. -/
theorem claim_C8 (st : AppState) (d : StoryboardData) (sid : String)
    (hd : st.data = some d)
    (hs : st.editingSceneId = some sid)
    (hne : sid ≠ "") :
    ∃ d2, (saveEdit st).1.data = some d2 ∧
      List.Forall₂ (fun p p2 =>
        p2.id = p.id ∧ p2.pageNumber = p.pageNumber ∧ p2.imageUrl = p.imageUrl ∧
        p2.isGenerating = p.isGenerating ∧
        p2.pageLayoutDescription = p.pageLayoutDescription ∧
        List.Forall₂ (fun s s2 =>
          s2.id = s.id ∧ s2.sceneNumber = s.sceneNumber ∧ s2.location = s.location ∧
          s2.timeOfDay = s.timeOfDay ∧ s2.dialogue = s.dialogue ∧
          s2.visualPrompt = s.visualPrompt ∧ s2.imageUrl = s.imageUrl ∧
          s2.isGenerating = s.isGenerating ∧
          s2.action = (if s.id = sid then st.editBuffer else s.action))
          p.scenes p2.scenes)
        d.pages d2.pages ∧
      (saveEdit st).2 = [] ∧
      (saveEdit st).1.step = st.step ∧ (saveEdit st).1.mode = st.mode ∧
      (saveEdit st).1.input = st.input ∧ (saveEdit st).1.loading = st.loading ∧
      (saveEdit st).1.developedStory = st.developedStory ∧
      (saveEdit st).1.error = st.error ∧
      (saveEdit st).1.editingSceneId = none ∧
      (saveEdit st).1.editBuffer = st.editBuffer := by
  have hsave : saveEdit st =
      ({ st with
         data := some { d with
           pages := d.pages.map (fun p => { p with
             scenes := p.scenes.map (fun s =>
               if s.id = sid then { s with action := st.editBuffer } else s) }) },
         editingSceneId := none },
       []) := by
    unfold saveEdit
    simp [hd, hs, hne]
  rw [hsave]
  refine ⟨_, rfl, ?_, rfl, rfl, rfl, rfl, rfl, rfl, rfl, rfl, rfl⟩
  apply forall2_map_self
  intro p _
  refine ⟨rfl, rfl, rfl, rfl, rfl, ?_⟩
  apply forall2_map_self
  intro s0 _
  by_cases hsid : s0.id = sid
  · simp [hsid]
  · simp [hsid]

theorem claim_C8_witness :
    ((AppState.mk AppStep.storyboard Mode.quick "i" false none
        (some (StoryboardData.mk "T" []
          [Page.mk "p1" 1
            [Scene.mk "sX" 1 "loc" none "old" none "vp" none none,
             Scene.mk "sY" 2 "loc" none "keep" none "vp" none none] none none "L1",
           Page.mk "p2" 2
            [Scene.mk "sX" 1 "loc" none "old2" none "vp" none none] none none "L2"]))
        none 5 10 none (some "sX") "NEW").data
      = some (StoryboardData.mk "T" []
          [Page.mk "p1" 1
            [Scene.mk "sX" 1 "loc" none "old" none "vp" none none,
             Scene.mk "sY" 2 "loc" none "keep" none "vp" none none] none none "L1",
           Page.mk "p2" 2
            [Scene.mk "sX" 1 "loc" none "old2" none "vp" none none] none none "L2"])) ∧
    ((AppState.mk AppStep.storyboard Mode.quick "i" false none
        (some (StoryboardData.mk "T" []
          [Page.mk "p1" 1
            [Scene.mk "sX" 1 "loc" none "old" none "vp" none none,
             Scene.mk "sY" 2 "loc" none "keep" none "vp" none none] none none "L1",
           Page.mk "p2" 2
            [Scene.mk "sX" 1 "loc" none "old2" none "vp" none none] none none "L2"]))
        none 5 10 none (some "sX") "NEW").editingSceneId = some "sX") ∧
    ("sX" ≠ "") ∧
    (∃ d2, (saveEdit (AppState.mk AppStep.storyboard Mode.quick "i" false none
        (some (StoryboardData.mk "T" []
          [Page.mk "p1" 1
            [Scene.mk "sX" 1 "loc" none "old" none "vp" none none,
             Scene.mk "sY" 2 "loc" none "keep" none "vp" none none] none none "L1",
           Page.mk "p2" 2
            [Scene.mk "sX" 1 "loc" none "old2" none "vp" none none] none none "L2"]))
        none 5 10 none (some "sX") "NEW")).1.data = some d2 ∧
      List.Forall₂ (fun p p2 =>
        p2.id = p.id ∧ p2.pageNumber = p.pageNumber ∧ p2.imageUrl = p.imageUrl ∧
        p2.isGenerating = p.isGenerating ∧
        p2.pageLayoutDescription = p.pageLayoutDescription ∧
        List.Forall₂ (fun s s2 =>
          s2.id = s.id ∧ s2.sceneNumber = s.sceneNumber ∧ s2.location = s.location ∧
          s2.timeOfDay = s.timeOfDay ∧ s2.dialogue = s.dialogue ∧
          s2.visualPrompt = s.visualPrompt ∧ s2.imageUrl = s.imageUrl ∧
          s2.isGenerating = s.isGenerating ∧
          s2.action = (if s.id = "sX" then
            (AppState.mk AppStep.storyboard Mode.quick "i" false none
              (some (StoryboardData.mk "T" []
                [Page.mk "p1" 1
                  [Scene.mk "sX" 1 "loc" none "old" none "vp" none none,
                   Scene.mk "sY" 2 "loc" none "keep" none "vp" none none] none none "L1",
                 Page.mk "p2" 2
                  [Scene.mk "sX" 1 "loc" none "old2" none "vp" none none]
                   none none "L2"]))
              none 5 10 none (some "sX") "NEW").editBuffer else s.action))
          p.scenes p2.scenes)
        (StoryboardData.mk "T" []
          [Page.mk "p1" 1
            [Scene.mk "sX" 1 "loc" none "old" none "vp" none none,
             Scene.mk "sY" 2 "loc" none "keep" none "vp" none none] none none "L1",
           Page.mk "p2" 2
            [Scene.mk "sX" 1 "loc" none "old2" none "vp" none none]
             none none "L2"]).pages d2.pages ∧
      (saveEdit (AppState.mk AppStep.storyboard Mode.quick "i" false none
        (some (StoryboardData.mk "T" []
          [Page.mk "p1" 1
            [Scene.mk "sX" 1 "loc" none "old" none "vp" none none,
             Scene.mk "sY" 2 "loc" none "keep" none "vp" none none] none none "L1",
           Page.mk "p2" 2
            [Scene.mk "sX" 1 "loc" none "old2" none "vp" none none] none none "L2"]))
        none 5 10 none (some "sX") "NEW")).2 = [] ∧
      (saveEdit (AppState.mk AppStep.storyboard Mode.quick "i" false none
        (some (StoryboardData.mk "T" []
          [Page.mk "p1" 1
            [Scene.mk "sX" 1 "loc" none "old" none "vp" none none,
             Scene.mk "sY" 2 "loc" none "keep" none "vp" none none] none none "L1",
           Page.mk "p2" 2
            [Scene.mk "sX" 1 "loc" none "old2" none "vp" none none] none none "L2"]))
        none 5 10 none (some "sX") "NEW")).1.step = AppStep.storyboard ∧
      (saveEdit (AppState.mk AppStep.storyboard Mode.quick "i" false none
        (some (StoryboardData.mk "T" []
          [Page.mk "p1" 1
            [Scene.mk "sX" 1 "loc" none "old" none "vp" none none,
             Scene.mk "sY" 2 "loc" none "keep" none "vp" none none] none none "L1",
           Page.mk "p2" 2
            [Scene.mk "sX" 1 "loc" none "old2" none "vp" none none] none none "L2"]))
        none 5 10 none (some "sX") "NEW")).1.mode = Mode.quick ∧
      (saveEdit (AppState.mk AppStep.storyboard Mode.quick "i" false none
        (some (StoryboardData.mk "T" []
          [Page.mk "p1" 1
            [Scene.mk "sX" 1 "loc" none "old" none "vp" none none,
             Scene.mk "sY" 2 "loc" none "keep" none "vp" none none] none none "L1",
           Page.mk "p2" 2
            [Scene.mk "sX" 1 "loc" none "old2" none "vp" none none] none none "L2"]))
        none 5 10 none (some "sX") "NEW")).1.input = "i" ∧
      (saveEdit (AppState.mk AppStep.storyboard Mode.quick "i" false none
        (some (StoryboardData.mk "T" []
          [Page.mk "p1" 1
            [Scene.mk "sX" 1 "loc" none "old" none "vp" none none,
             Scene.mk "sY" 2 "loc" none "keep" none "vp" none none] none none "L1",
           Page.mk "p2" 2
            [Scene.mk "sX" 1 "loc" none "old2" none "vp" none none] none none "L2"]))
        none 5 10 none (some "sX") "NEW")).1.loading = false ∧
      (saveEdit (AppState.mk AppStep.storyboard Mode.quick "i" false none
        (some (StoryboardData.mk "T" []
          [Page.mk "p1" 1
            [Scene.mk "sX" 1 "loc" none "old" none "vp" none none,
             Scene.mk "sY" 2 "loc" none "keep" none "vp" none none] none none "L1",
           Page.mk "p2" 2
            [Scene.mk "sX" 1 "loc" none "old2" none "vp" none none] none none "L2"]))
        none 5 10 none (some "sX") "NEW")).1.developedStory = none ∧
      (saveEdit (AppState.mk AppStep.storyboard Mode.quick "i" false none
        (some (StoryboardData.mk "T" []
          [Page.mk "p1" 1
            [Scene.mk "sX" 1 "loc" none "old" none "vp" none none,
             Scene.mk "sY" 2 "loc" none "keep" none "vp" none none] none none "L1",
           Page.mk "p2" 2
            [Scene.mk "sX" 1 "loc" none "old2" none "vp" none none] none none "L2"]))
        none 5 10 none (some "sX") "NEW")).1.error = none ∧
      (saveEdit (AppState.mk AppStep.storyboard Mode.quick "i" false none
        (some (StoryboardData.mk "T" []
          [Page.mk "p1" 1
            [Scene.mk "sX" 1 "loc" none "old" none "vp" none none,
             Scene.mk "sY" 2 "loc" none "keep" none "vp" none none] none none "L1",
           Page.mk "p2" 2
            [Scene.mk "sX" 1 "loc" none "old2" none "vp" none none] none none "L2"]))
        none 5 10 none (some "sX") "NEW")).1.editingSceneId = none ∧
      (saveEdit (AppState.mk AppStep.storyboard Mode.quick "i" false none
        (some (StoryboardData.mk "T" []
          [Page.mk "p1" 1
            [Scene.mk "sX" 1 "loc" none "old" none "vp" none none,
             Scene.mk "sY" 2 "loc" none "keep" none "vp" none none] none none "L1",
           Page.mk "p2" 2
            [Scene.mk "sX" 1 "loc" none "old2" none "vp" none none] none none "L2"]))
        none 5 10 none (some "sX") "NEW")).1.editBuffer = "NEW") :=
  ⟨rfl, rfl, by decide,
   claim_C8 (AppState.mk AppStep.storyboard Mode.quick "i" false none
      (some (StoryboardData.mk "T" []
        [Page.mk "p1" 1
          [Scene.mk "sX" 1 "loc" none "old" none "vp" none none,
           Scene.mk "sY" 2 "loc" none "keep" none "vp" none none] none none "L1",
         Page.mk "p2" 2
          [Scene.mk "sX" 1 "loc" none "old2" none "vp" none none] none none "L2"]))
      none 5 10 none (some "sX") "NEW")
     (StoryboardData.mk "T" []
       [Page.mk "p1" 1
         [Scene.mk "sX" 1 "loc" none "old" none "vp" none none,
          Scene.mk "sY" 2 "loc" none "keep" none "vp" none none] none none "L1",
        Page.mk "p2" 2
         [Scene.mk "sX" 1 "loc" none "old2" none "vp" none none] none none "L2"])
     "sX" rfl rfl (by decide)⟩

set_option maxRecDepth 4000 in
/-- C6 counterexample: the Storyboard Structurer returns the parsed response
verbatim, performing no validation, so for a request of `P = 1` page with
`K = 2` panels it successfully returns a storyboard whose single page has two
scenes numbered 1 and 3 — not contiguous from 1 as the claim requires
(`scenes[1].sceneNumber` is 3, not 2); `gridOk` confirms the grid invariant is
violated. -/
theorem claim_C6_counterexample :
    generateStoryboardFromText
        (fun _ => TextResponse.mk (some "\x7b\"title\":\"t\",\"characters\":[],\"pages\":[\x7b\"id\":\"p\",\"pageNumber\":1,\"pageLayoutDescription\":\"d\",\"scenes\":[\x7b\"id\":\"a\",\"sceneNumber\":1,\"location\":\"l\",\"action\":\"x\",\"visualPrompt\":\"v\"\x7d,\x7b\"id\":\"b\",\"sceneNumber\":3,\"location\":\"l\",\"action\":\"x\",\"visualPrompt\":\"v\"\x7d]\x7d]\x7d"))
        "screenplay" 1 2
      = Except.ok (JValue.obj [("title", JValue.str "t"), ("characters", JValue.arr []),
          ("pages", JValue.arr [JValue.obj [("id", JValue.str "p"),
            ("pageNumber", JValue.num 1), ("pageLayoutDescription", JValue.str "d"),
            ("scenes", JValue.arr [
              JValue.obj [("id", JValue.str "a"), ("sceneNumber", JValue.num 1),
                ("location", JValue.str "l"), ("action", JValue.str "x"),
                ("visualPrompt", JValue.str "v")],
              JValue.obj [("id", JValue.str "b"), ("sceneNumber", JValue.num 3),
                ("location", JValue.str "l"), ("action", JValue.str "x"),
                ("visualPrompt", JValue.str "v")]])]])]) ∧
    decodeStoryboardData (JValue.obj [("title", JValue.str "t"),
        ("characters", JValue.arr []),
        ("pages", JValue.arr [JValue.obj [("id", JValue.str "p"),
          ("pageNumber", JValue.num 1), ("pageLayoutDescription", JValue.str "d"),
          ("scenes", JValue.arr [
            JValue.obj [("id", JValue.str "a"), ("sceneNumber", JValue.num 1),
              ("location", JValue.str "l"), ("action", JValue.str "x"),
              ("visualPrompt", JValue.str "v")],
            JValue.obj [("id", JValue.str "b"), ("sceneNumber", JValue.num 3),
              ("location", JValue.str "l"), ("action", JValue.str "x"),
              ("visualPrompt", JValue.str "v")]])]])])
      = some (StoryboardData.mk "t" []
          [Page.mk "p" 1
            [Scene.mk "a" 1 "l" none "x" none "v" none none,
             Scene.mk "b" 3 "l" none "x" none "v" none none] none none "d"]) ∧
    gridOk 1 2 (StoryboardData.mk "t" []
        [Page.mk "p" 1
          [Scene.mk "a" 1 "l" none "x" none "v" none none,
           Scene.mk "b" 3 "l" none "x" none "v" none none] none none "d"]) = false ∧
    ¬ (∀ pg ∈ (StoryboardData.mk "t" []
          [Page.mk "p" 1
            [Scene.mk "a" 1 "l" none "x" none "v" none none,
             Scene.mk "b" 3 "l" none "x" none "v" none none] none none "d"]).pages,
        ∀ i (hi : i < pg.scenes.length),
          (pg.scenes.get ⟨i, hi⟩).sceneNumber = (i : Int) + 1) :=
  ⟨rfl, rfl, rfl, by decide⟩

/-- C6 (amended): the Storyboard Structurer returns the service's parsed JSON
verbatim and validates nothing, so the grid invariant holds of its output
exactly when the service response satisfies it: whenever the returned value
decodes to a storyboard accepted by the `gridOk` check for the requested `P`
pages and `K` panels per page, every page has exactly `K` scenes whose
sceneNumbers are contiguous from 1, and total pages times panels-per-page
equals the requested panel count. -/
theorem claim_C6 (svc : String → TextResponse) (text : String) (P K : Nat)
    (v : JValue) (sb : StoryboardData)
    (hok : generateStoryboardFromText svc text P K = Except.ok v)
    (hdec : decodeStoryboardData v = some sb)
    (hgrid : gridOk P K sb = true) :
    parseJSON (jsOrEmptyObj (svc (storyboardContents text P K)).text) = some v ∧
    (∀ pg ∈ sb.pages, pg.scenes.length = K ∧
      ∀ i (hi : i < pg.scenes.length),
        (pg.scenes.get ⟨i, hi⟩).sceneNumber = (i : Int) + 1) ∧
    sb.pages.length * K = P * K := by
  rcases (Bool.and_eq_true _ _).mp hgrid with ⟨h1, h2⟩
  refine ⟨?_, ?_, ?_⟩
  · unfold generateStoryboardFromText at hok
    split at hok
    next v2 hv =>
        have he : v2 = v := by injection hok
        rw [← he]
        exact hv
    next hv => cases hok
  · intro pg hpg
    have h3 := List.all_eq_true.mp h2 pg hpg
    rcases (Bool.and_eq_true _ _).mp h3 with ⟨h4, h5⟩
    have hlen : pg.scenes.length = K := by simpa using h4
    refine ⟨hlen, ?_⟩
    intro i hi
    have hnum := numberedFrom_get pg.scenes 1 h5 i hi
    rw [hnum]
    push_cast
    ring
  · simpa using h1

set_option maxRecDepth 4000 in
theorem claim_C6_witness :
    generateStoryboardFromText
        (fun _ => TextResponse.mk (some "\x7b\"title\":\"t\",\"characters\":[],\"pages\":[\x7b\"id\":\"p\",\"pageNumber\":1,\"pageLayoutDescription\":\"d\",\"scenes\":[\x7b\"id\":\"a\",\"sceneNumber\":1,\"location\":\"l\",\"action\":\"x\",\"visualPrompt\":\"v\"\x7d,\x7b\"id\":\"b\",\"sceneNumber\":2,\"location\":\"l\",\"action\":\"x\",\"visualPrompt\":\"v\"\x7d]\x7d]\x7d"))
        "screenplay" 1 2
      = Except.ok (JValue.obj [("title", JValue.str "t"), ("characters", JValue.arr []),
          ("pages", JValue.arr [JValue.obj [("id", JValue.str "p"),
            ("pageNumber", JValue.num 1), ("pageLayoutDescription", JValue.str "d"),
            ("scenes", JValue.arr [
              JValue.obj [("id", JValue.str "a"), ("sceneNumber", JValue.num 1),
                ("location", JValue.str "l"), ("action", JValue.str "x"),
                ("visualPrompt", JValue.str "v")],
              JValue.obj [("id", JValue.str "b"), ("sceneNumber", JValue.num 2),
                ("location", JValue.str "l"), ("action", JValue.str "x"),
                ("visualPrompt", JValue.str "v")]])]])]) ∧
    decodeStoryboardData (JValue.obj [("title", JValue.str "t"),
        ("characters", JValue.arr []),
        ("pages", JValue.arr [JValue.obj [("id", JValue.str "p"),
          ("pageNumber", JValue.num 1), ("pageLayoutDescription", JValue.str "d"),
          ("scenes", JValue.arr [
            JValue.obj [("id", JValue.str "a"), ("sceneNumber", JValue.num 1),
              ("location", JValue.str "l"), ("action", JValue.str "x"),
              ("visualPrompt", JValue.str "v")],
            JValue.obj [("id", JValue.str "b"), ("sceneNumber", JValue.num 2),
              ("location", JValue.str "l"), ("action", JValue.str "x"),
              ("visualPrompt", JValue.str "v")]])]])])
      = some (StoryboardData.mk "t" []
          [Page.mk "p" 1
            [Scene.mk "a" 1 "l" none "x" none "v" none none,
             Scene.mk "b" 2 "l" none "x" none "v" none none] none none "d"]) ∧
    gridOk 1 2 (StoryboardData.mk "t" []
        [Page.mk "p" 1
          [Scene.mk "a" 1 "l" none "x" none "v" none none,
           Scene.mk "b" 2 "l" none "x" none "v" none none] none none "d"]) = true ∧
    (parseJSON (jsOrEmptyObj ((fun _ => TextResponse.mk (some "\x7b\"title\":\"t\",\"characters\":[],\"pages\":[\x7b\"id\":\"p\",\"pageNumber\":1,\"pageLayoutDescription\":\"d\",\"scenes\":[\x7b\"id\":\"a\",\"sceneNumber\":1,\"location\":\"l\",\"action\":\"x\",\"visualPrompt\":\"v\"\x7d,\x7b\"id\":\"b\",\"sceneNumber\":2,\"location\":\"l\",\"action\":\"x\",\"visualPrompt\":\"v\"\x7d]\x7d]\x7d") : String → TextResponse)
          (storyboardContents "screenplay" 1 2)).text)
        = some (JValue.obj [("title", JValue.str "t"), ("characters", JValue.arr []),
            ("pages", JValue.arr [JValue.obj [("id", JValue.str "p"),
              ("pageNumber", JValue.num 1), ("pageLayoutDescription", JValue.str "d"),
              ("scenes", JValue.arr [
                JValue.obj [("id", JValue.str "a"), ("sceneNumber", JValue.num 1),
                  ("location", JValue.str "l"), ("action", JValue.str "x"),
                  ("visualPrompt", JValue.str "v")],
                JValue.obj [("id", JValue.str "b"), ("sceneNumber", JValue.num 2),
                  ("location", JValue.str "l"), ("action", JValue.str "x"),
                  ("visualPrompt", JValue.str "v")]])]])]) ∧
     (∀ pg ∈ (StoryboardData.mk "t" []
          [Page.mk "p" 1
            [Scene.mk "a" 1 "l" none "x" none "v" none none,
             Scene.mk "b" 2 "l" none "x" none "v" none none] none none "d"]).pages,
        pg.scenes.length = 2 ∧
        ∀ i (hi : i < pg.scenes.length),
          (pg.scenes.get ⟨i, hi⟩).sceneNumber = (i : Int) + 1) ∧
     (StoryboardData.mk "t" []
        [Page.mk "p" 1
          [Scene.mk "a" 1 "l" none "x" none "v" none none,
           Scene.mk "b" 2 "l" none "x" none "v" none none] none none "d"]).pages.length * 2
       = 1 * 2) :=
  ⟨rfl, rfl, rfl,
   claim_C6
     (fun _ => TextResponse.mk (some "\x7b\"title\":\"t\",\"characters\":[],\"pages\":[\x7b\"id\":\"p\",\"pageNumber\":1,\"pageLayoutDescription\":\"d\",\"scenes\":[\x7b\"id\":\"a\",\"sceneNumber\":1,\"location\":\"l\",\"action\":\"x\",\"visualPrompt\":\"v\"\x7d,\x7b\"id\":\"b\",\"sceneNumber\":2,\"location\":\"l\",\"action\":\"x\",\"visualPrompt\":\"v\"\x7d]\x7d]\x7d"))
     "screenplay" 1 2
     (JValue.obj [("title", JValue.str "t"), ("characters", JValue.arr []),
       ("pages", JValue.arr [JValue.obj [("id", JValue.str "p"),
         ("pageNumber", JValue.num 1), ("pageLayoutDescription", JValue.str "d"),
         ("scenes", JValue.arr [
           JValue.obj [("id", JValue.str "a"), ("sceneNumber", JValue.num 1),
             ("location", JValue.str "l"), ("action", JValue.str "x"),
             ("visualPrompt", JValue.str "v")],
           JValue.obj [("id", JValue.str "b"), ("sceneNumber", JValue.num 2),
             ("location", JValue.str "l"), ("action", JValue.str "x"),
             ("visualPrompt", JValue.str "v")]])]])])
     (StoryboardData.mk "t" []
       [Page.mk "p" 1
         [Scene.mk "a" 1 "l" none "x" none "v" none none,
          Scene.mk "b" 2 "l" none "x" none "v" none none] none none "d"])
     rfl rfl rfl⟩

end IVS
